import Mathlib

/-!
Verification development for the TEEHR DevCon-2024 workshop notebook
`01-ex1-simple.ipynb`.  The notebook is a linear script that converts CSV and
GeoJSON inputs to Parquet files laid out in fixed subdirectories, joins
primary and secondary timeseries through a crosswalk table in a scratch DuckDB
database, adds attributes and a calculated `month` field, and exports the
joined table to a sorted Parquet file before deleting the scratch database.

The development shallowly embeds the notebook's data model and the sequence of
operations it performs.  Operations that live in external libraries (pandas,
teehr, duckdb, the Python datetime module) are modelled from their documented
behaviour, and where the claim depends on the external teehr package that the
repository only calls, the definition is modelled from the spec and marked so
in its doc comment.
-/

namespace Teehr

/-! ## Date/time values

The notebook stores `value_time` and `reference_time` columns as
`datetime64[ns]` values and extracts the month through Python's
`datetime.month`.  A datetime is modelled as a calendar record; `isValid`
captures the invariant the Python `datetime` library maintains for every
constructed value (months run 1..12, days fit the month, etc.). -/

structure DateTime where
  year : Int
  month : Nat
  day : Nat
  hour : Nat
  minute : Nat
deriving DecidableEq, Repr

/-- Gregorian leap-year test, as the Python `datetime` module defines it. -/
def isLeapYear (y : Int) : Bool :=
  (y % 4 == 0 && y % 100 != 0) || (y % 400 == 0)

/-- Number of days in a month of a given year. -/
def daysInMonth (y : Int) (m : Nat) : Nat :=
  if m = 2 then (if isLeapYear y then 29 else 28)
  else if m = 4 ∨ m = 6 ∨ m = 9 ∨ m = 11 then 30
  else 31

/-- Validity invariant of a constructed Python `datetime` value. -/
def DateTime.isValid (d : DateTime) : Prop :=
  1 ≤ d.month ∧ d.month ≤ 12 ∧ 1 ≤ d.day ∧ d.day ≤ daysInMonth d.year d.month ∧
    d.hour < 24 ∧ d.minute < 60

instance (d : DateTime) : Decidable d.isValid := by
  unfold DateTime.isValid; infer_instance

/-! ## Records of the data model

These mirror the columns the notebook manipulates.  Timeseries values are
numeric; they are modelled as rationals since no claim depends on
floating-point rounding. -/

/-- A raw timeseries row as read from `obs.csv` / `baseline.csv` / `sim.csv`.
Modelled from the spec: the CSV inputs themselves are fetched from object
storage and are not in the repository; the spec's data model gives a
timeseries point the dynamic fields `(location_id, value_time, value)`. -/
structure RawTimeseries where
  location_id : String
  value_time : DateTime
  value : Rat
deriving DecidableEq, Repr

/-- A TEEHR-format timeseries row: the raw columns plus the four static
columns the conversion cells add before saving to Parquet. -/
structure TimeseriesRecord where
  location_id : String
  value_time : DateTime
  value : Rat
  configuration : String
  variable_name : String
  measurement_unit : String
  reference_time : Option DateTime
deriving DecidableEq, Repr

/-- A crosswalk row mapping a primary location id to a secondary location id. -/
structure CrosswalkRecord where
  primary_location_id : String
  secondary_location_id : String
deriving DecidableEq, Repr

/-- A location attribute row.  The notebook notes that attribute values are
stored in the database as type `str`. -/
structure AttributeRecord where
  location_id : String
  attribute_name : String
  attribute_value : String
deriving DecidableEq, Repr

/-! ## Conversion of the timeseries CSV files

The notebook's conversion cells add `configuration`, `variable_name`,
`measurement_unit` and `reference_time` columns to each dataframe and save it
to Parquet.  `reference_time` is set to `None` and cast to `datetime64[ns]`,
i.e. every row's reference time is missing. -/

/-- One conversion cell: add the four static columns to a raw row.
`configuration` varies per dataset; `variable_name` is always
`streamflow_daily_mean`, `measurement_unit` is always `cms` and
`reference_time` is `None` cast to `datetime64[ns]`. -/
def addStaticColumns (config : String) (r : RawTimeseries) : TimeseriesRecord :=
  { location_id := r.location_id
    value_time := r.value_time
    value := r.value
    configuration := config
    variable_name := "streamflow_daily_mean"
    measurement_unit := "cms"
    reference_time := none }

/-- The converted observed (primary) timeseries, configuration `usgs`. -/
def obs_ts (raw : List RawTimeseries) : List TimeseriesRecord :=
  raw.map (addStaticColumns "usgs")

/-- The converted baseline simulation (secondary) timeseries,
configuration `baseline`. -/
def baseline_ts (raw : List RawTimeseries) : List TimeseriesRecord :=
  raw.map (addStaticColumns "baseline")

/-- Pandas column assignment `df[col] = series` for a frame and a series that
both carry the default `RangeIndex`: row `i` of the frame receives the source
series value at index `i`, and a missing index yields a missing value.
Modelled from the pandas documentation of index alignment. -/
def assignRefTimeColumn : List (Option DateTime) → List TimeseriesRecord →
    List TimeseriesRecord
  | _, [] => []
  | [], r :: rows => { r with reference_time := none } :: assignRefTimeColumn [] rows
  | v :: src, r :: rows => { r with reference_time := v } :: assignRefTimeColumn src rows

/-- The converted innovation simulation (secondary) timeseries, configuration
`sim`.  The notebook's cell assigns the `reference_time` column from
`baseline_ts['reference_time']` (not from `sim_ts`'s own column), so the
values are aligned to `baseline_ts`'s index. -/
def sim_ts (rawSim rawBaseline : List RawTimeseries) : List TimeseriesRecord :=
  assignRefTimeColumn ((baseline_ts rawBaseline).map (fun r => r.reference_time))
    (rawSim.map (addStaticColumns "sim"))

/-! ## Column-name view of the conversion (for the field-set claim)

`df[c] = v` adds column `c` at the end of the frame when it is absent and
overwrites it in place when present. -/

/-- Pandas `df[c] = v` effect on the list of column names. -/
def addColumn (cols : List String) (c : String) : List String :=
  if c ∈ cols then cols else cols ++ [c]

/-- Column names of the raw timeseries CSV files.  Modelled from the spec:
the CSVs are not in the repository; the spec's timeseries record carries the
dynamic fields `location_id`, `value_time`, `value`. -/
def rawTimeseriesColumns : List String :=
  ["location_id", "value_time", "value"]

/-- Column names after a conversion cell runs: the cell assigns
`configuration`, `variable_name`, `measurement_unit`, `reference_time`, and
then re-assigns `reference_time` with the `datetime64[ns]` cast. -/
def convertedTimeseriesColumns (raw : List String) : List String :=
  addColumn (addColumn (addColumn (addColumn (addColumn raw
    "configuration") "variable_name") "measurement_unit") "reference_time") "reference_time"

/-! ## The joined timeseries table

`insert_joined_timeseries`, `insert_attributes` and `insert_calculated_field`
live in the external teehr package which the repository only calls, so they
are modelled from the spec. -/

/-- A joined timeseries row before attribute enrichment. -/
structure JoinedRow where
  primary_location_id : String
  secondary_location_id : String
  value_time : DateTime
  primary_value : Rat
  secondary_value : Rat
  configuration : String
  variable_name : String
  measurement_unit : String
  reference_time : Option DateTime
deriving DecidableEq, Repr

/-- A joined row enriched with its location's `(attribute_name, value)`
pairs. -/
structure JoinedRowAttr extends JoinedRow where
  attribute_values : List (String × String)
deriving DecidableEq, Repr

/-- A joined, enriched row carrying the calculated `month` field (an SQL
INTEGER column). -/
structure JoinedRowMonth extends JoinedRowAttr where
  month : Int
deriving DecidableEq, Repr

/-- Modelled from the spec: `ddb.insert_joined_timeseries` of the external
teehr package "joins primary and secondary timeseries on location (via
crosswalk) and time".  For each crosswalk pair, each primary row at the
pair's primary location is paired with each secondary row at the pair's
secondary location that has the same `value_time`. -/
def insert_joined_timeseries (primary secondary : List TimeseriesRecord)
    (crosswalk : List CrosswalkRecord) : List JoinedRow :=
  crosswalk.flatMap fun cw =>
    (primary.filter fun p => p.location_id == cw.primary_location_id).flatMap fun p =>
      ((secondary.filter fun s =>
          s.location_id == cw.secondary_location_id && s.value_time == p.value_time).map
        fun s =>
          { primary_location_id := cw.primary_location_id
            secondary_location_id := cw.secondary_location_id
            value_time := p.value_time
            primary_value := p.value
            secondary_value := s.value
            configuration := s.configuration
            variable_name := p.variable_name
            measurement_unit := p.measurement_unit
            reference_time := s.reference_time })

/-- The attribute pairs of a given location in an attribute table. -/
def attributesFor (attrTable : List AttributeRecord) (loc : String) :
    List (String × String) :=
  (attrTable.filter fun a => a.location_id == loc).map
    fun a => (a.attribute_name, a.attribute_value)

/-- Modelled from the spec: `ddb.insert_attributes` of the external teehr
package augments each joined row with the attributes of its (primary)
location. -/
def insert_attributes (attrTable : List AttributeRecord) (rows : List JoinedRow) :
    List JoinedRowAttr :=
  rows.map fun r =>
    { toJoinedRow := r
      attribute_values := attributesFor attrTable r.primary_location_id }

/-- The notebook's user-defined function for the calculated field:
`def add_month_field(arg1: datetime) -> int: return arg1.month`. -/
def add_month_field (arg1 : DateTime) : Int :=
  arg1.month

/-- The arguments of the notebook's `insert_calculated_field` call. -/
structure CalculatedFieldSpec where
  new_field_name : String
  new_field_type : String
  parameter_names : List String
deriving DecidableEq, Repr

/-- The call made by the notebook: add `month` of SQL type INTEGER computed
from the `value_time` field. -/
def monthFieldSpec : CalculatedFieldSpec :=
  { new_field_name := "month"
    new_field_type := "INTEGER"
    parameter_names := ["value_time"] }

/-- Modelled from the spec: `ddb.insert_calculated_field` of the external
teehr package evaluates the user-defined function on the named parameter
field of every joined row and stores the result in the new column; here the
notebook's `month` call. -/
def insert_calculated_field_month (rows : List JoinedRowAttr) : List JoinedRowMonth :=
  rows.map fun r =>
    { toJoinedRowAttr := r
      month := add_month_field r.value_time }

/-! ## Export of the joined table

The export cell is an in-repo SQL string:
`COPY (SELECT * FROM joined_timeseries ORDER BY configuration,
primary_location_id, value_time) TO '<JOINED_FILEPATH>/joined.parquet'`.
The `ORDER BY` is embedded as a lexicographic key. -/

/-- Chronological sort key of a datetime (lexicographic on the calendar
components, the order `ORDER BY value_time` induces on `datetime64` values). -/
def dtKey (d : DateTime) : Lex (Int × Lex (Nat × Lex (Nat × Lex (Nat × Nat)))) :=
  toLex (d.year, toLex (d.month, toLex (d.day, toLex (d.hour, d.minute))))

/-- The export query's `ORDER BY configuration, primary_location_id,
value_time` key. -/
def exportKey (r : JoinedRowMonth) :
    Lex (String × Lex (String × Lex (Int × Lex (Nat × Lex (Nat × Lex (Nat × Nat)))))) :=
  toLex (r.configuration, toLex (r.primary_location_id, dtKey r.value_time))

/-- The row order imposed by the export query's `ORDER BY` clause. -/
def exportOrder (a b : JoinedRowMonth) : Prop :=
  exportKey a ≤ exportKey b

instance : DecidableRel exportOrder := by
  unfold exportOrder; infer_instance

instance : IsTotal JoinedRowMonth exportOrder :=
  ⟨fun a b => le_total (exportKey a) (exportKey b)⟩

instance : IsTrans JoinedRowMonth exportOrder :=
  ⟨fun _ _ _ hab hbc => le_trans hab hbc⟩

/-- The rows written to `joined/joined.parquet`: all rows of the joined
timeseries table, ordered by the export query's `ORDER BY` clause. -/
def exportJoined (rows : List JoinedRowMonth) : List JoinedRowMonth :=
  rows.insertionSort exportOrder

/-! ## Filesystem layout

Paths are component lists rooted at the user's home directory.  The notebook
defines `RAW_DATA_FILEPATH = ~/teehr/example-1/raw` and
`TEEHR_BASE = ~/teehr/example-1/teehr_base`, with six fixed table folders and
the scratch database file under `TEEHR_BASE`. -/

abbrev FsPath := List String

def example1Dir : FsPath := ["home", "teehr", "example-1"]

def RAW_DATA_FILEPATH : FsPath := example1Dir ++ ["raw"]

def TEEHR_BASE : FsPath := example1Dir ++ ["teehr_base"]

def PRIMARY_FILEPATH : FsPath := TEEHR_BASE ++ ["primary"]

def SECONDARY_FILEPATH : FsPath := TEEHR_BASE ++ ["secondary"]

def CROSSWALK_FILEPATH : FsPath := TEEHR_BASE ++ ["crosswalk"]

def GEOMETRY_FILEPATH : FsPath := TEEHR_BASE ++ ["geometry"]

def ATTRIBUTE_FILEPATH : FsPath := TEEHR_BASE ++ ["attribute"]

def JOINED_FILEPATH : FsPath := TEEHR_BASE ++ ["joined"]

def DB_FILEPATH : FsPath := TEEHR_BASE ++ ["teehr.db"]

/-- The kinds of TEEHR table a converted file belongs to. -/
inductive EntityType where
  | primary
  | secondary
  | crosswalk
  | geometry
  | attribute
  | joined
deriving DecidableEq, Repr

/-- The fixed subdirectory of `TEEHR_BASE` holding each entity type. -/
def subdirName : EntityType → String
  | .primary => "primary"
  | .secondary => "secondary"
  | .crosswalk => "crosswalk"
  | .geometry => "geometry"
  | .attribute => "attribute"
  | .joined => "joined"

/-- The six fixed table subdirectories of the TEEHR base directory. -/
def teehrSubdirs : List String :=
  ["primary", "secondary", "crosswalk", "geometry", "attribute", "joined"]

/-- A Parquet write performed by the notebook: the destination path and the
entity type of the data written, read off the cell performing it. -/
structure ParquetWrite where
  path : FsPath
  entity : EntityType
deriving DecidableEq, Repr

/-- Every Parquet write of the notebook, in script order: the geometry file,
the two crosswalks, the three attribute files, the primary and the two
secondary timeseries, and the joined export. -/
def parquetWrites : List ParquetWrite :=
  [ { path := GEOMETRY_FILEPATH ++ ["locations.parquet"], entity := .geometry }
  , { path := CROSSWALK_FILEPATH ++ ["baseline-crosswalk.parquet"], entity := .crosswalk }
  , { path := CROSSWALK_FILEPATH ++ ["sim-crosswalk.parquet"], entity := .crosswalk }
  , { path := ATTRIBUTE_FILEPATH ++ ["2yr_discharge.parquet"], entity := .attribute }
  , { path := ATTRIBUTE_FILEPATH ++ ["drainage_area.parquet"], entity := .attribute }
  , { path := ATTRIBUTE_FILEPATH ++ ["ecoregion.parquet"], entity := .attribute }
  , { path := PRIMARY_FILEPATH ++ ["obs.parquet"], entity := .primary }
  , { path := SECONDARY_FILEPATH ++ ["baseline.parquet"], entity := .secondary }
  , { path := SECONDARY_FILEPATH ++ ["sim.parquet"], entity := .secondary }
  , { path := JOINED_FILEPATH ++ ["joined.parquet"], entity := .joined } ]

/-! ## The script as a state machine

A filesystem state is the list of existing files.  Each notebook cell's
effect on it is given in order, together with the trace of operations the
cell performs, so that claims about branching, the scratch database and the
persisted artifacts can be settled for every starting state. -/

abbrev FS := List FsPath

/-- Does a file exist (`Path.is_file`)? -/
def isFile (p : FsPath) (fs : FS) : Bool :=
  decide (p ∈ fs)

/-- `rm -rf dir`: every file under `dir` disappears. -/
def removeTreeFS (dir : FsPath) (fs : FS) : FS :=
  fs.filter fun q => !decide (dir <+: q)

/-- Create or overwrite a file. -/
def writeFS (p : FsPath) (fs : FS) : FS :=
  p :: fs.filter fun q => !decide (q = p)

/-- `Path.unlink`: remove a file. -/
def unlinkFS (p : FsPath) (fs : FS) : FS :=
  fs.filter fun q => !decide (q = p)

/-- The raw input files the `aws s3 cp --recursive` cell downloads into
`RAW_DATA_FILEPATH`. -/
def rawFiles : List FsPath :=
  [ RAW_DATA_FILEPATH ++ ["gages.geojson"]
  , RAW_DATA_FILEPATH ++ ["baseline-crosswalk.csv"]
  , RAW_DATA_FILEPATH ++ ["sim-crosswalk.csv"]
  , RAW_DATA_FILEPATH ++ ["gage_attr_2yr_discharge.csv"]
  , RAW_DATA_FILEPATH ++ ["gage_attr_drainage_area_km2.csv"]
  , RAW_DATA_FILEPATH ++ ["gage_attr_ecoregion.csv"]
  , RAW_DATA_FILEPATH ++ ["obs.csv"]
  , RAW_DATA_FILEPATH ++ ["baseline.csv"]
  , RAW_DATA_FILEPATH ++ ["sim.csv"] ]

/-- Download the raw files into the filesystem. -/
def downloadFS (fs : FS) : FS :=
  rawFiles.foldl (fun acc p => writeFS p acc) fs

/-- One operation performed by a notebook cell. -/
inductive Op where
  | removeTree (dir : FsPath)
  | download (dir : FsPath)
  | mkdir (dir : FsPath)
  | tree
  | readFile (p : FsPath)
  | writeFile (p : FsPath)
  | createDb (p : FsPath)
  | unlink (p : FsPath)
  | insertJoinedTimeseries
  | insertAttributes
  | insertCalculatedField
  | getSchema
  | exportJoinedTable (p : FsPath)
  | openJoinedParquet
  | getJoinedTimeseries
  | getMetrics
  | plot
deriving DecidableEq, Repr

/-- Effect of one operation on the filesystem.  Reads, `mkdir` (directories
are not part of the file state), `tree`, database-internal inserts, queries
and plots leave the file set unchanged. -/
def applyOp : Op → FS → FS
  | .removeTree d, fs => removeTreeFS d fs
  | .download _, fs => downloadFS fs
  | .writeFile p, fs => writeFS p fs
  | .createDb p, fs => writeFS p fs
  | .unlink p, fs => unlinkFS p fs
  | .exportJoinedTable p, fs => writeFS p fs
  | _, fs => fs

/-- A notebook command: either an unconditional operation, or the script's
single conditional form `if DB_FILEPATH.is_file(): DB_FILEPATH.unlink()`,
which appears twice. -/
inductive Cmd where
  | exec (o : Op)
  | unlinkDbIfExists
deriving DecidableEq, Repr

/-- Run one command: the state it leaves and the operations it performs. -/
def runCmd (c : Cmd) (fs : FS) : FS × List Op :=
  match c with
  | .exec o => (applyOp o fs, [o])
  | .unlinkDbIfExists =>
      if isFile DB_FILEPATH fs then (unlinkFS DB_FILEPATH fs, [.unlink DB_FILEPATH])
      else (fs, [])

/-- Run a command list in order, accumulating the trace of operations. -/
def runCmds : List Cmd → FS → FS × List Op
  | [], fs => (fs, [])
  | c :: rest, fs =>
      let step := runCmd c fs
      let next := runCmds rest step.1
      (next.1, step.2 ++ next.2)

/-- The notebook's code cells, in order. -/
def script : List Cmd :=
  [ -- cell: rm -rf example-1 and download the raw data from S3
    .exec (.removeTree example1Dir)
  , .exec (.download RAW_DATA_FILEPATH)
    -- cell: create the six table folders
  , .exec (.mkdir PRIMARY_FILEPATH)
  , .exec (.mkdir SECONDARY_FILEPATH)
  , .exec (.mkdir CROSSWALK_FILEPATH)
  , .exec (.mkdir GEOMETRY_FILEPATH)
  , .exec (.mkdir ATTRIBUTE_FILEPATH)
  , .exec (.mkdir JOINED_FILEPATH)
  , .exec .tree
    -- cell: read gages.geojson, write geometry/locations.parquet
  , .exec (.readFile (RAW_DATA_FILEPATH ++ ["gages.geojson"]))
  , .exec (.writeFile (GEOMETRY_FILEPATH ++ ["locations.parquet"]))
    -- cells: the two crosswalks
  , .exec (.readFile (RAW_DATA_FILEPATH ++ ["baseline-crosswalk.csv"]))
  , .exec (.writeFile (CROSSWALK_FILEPATH ++ ["baseline-crosswalk.parquet"]))
  , .exec (.readFile (RAW_DATA_FILEPATH ++ ["sim-crosswalk.csv"]))
  , .exec (.writeFile (CROSSWALK_FILEPATH ++ ["sim-crosswalk.parquet"]))
    -- cell: the three attribute files
  , .exec (.readFile (RAW_DATA_FILEPATH ++ ["gage_attr_2yr_discharge.csv"]))
  , .exec (.writeFile (ATTRIBUTE_FILEPATH ++ ["2yr_discharge.parquet"]))
  , .exec (.readFile (RAW_DATA_FILEPATH ++ ["gage_attr_drainage_area_km2.csv"]))
  , .exec (.writeFile (ATTRIBUTE_FILEPATH ++ ["drainage_area.parquet"]))
  , .exec (.readFile (RAW_DATA_FILEPATH ++ ["gage_attr_ecoregion.csv"]))
  , .exec (.writeFile (ATTRIBUTE_FILEPATH ++ ["ecoregion.parquet"]))
    -- cells: the three timeseries conversions
  , .exec (.readFile (RAW_DATA_FILEPATH ++ ["obs.csv"]))
  , .exec (.writeFile (PRIMARY_FILEPATH ++ ["obs.parquet"]))
  , .exec (.readFile (RAW_DATA_FILEPATH ++ ["baseline.csv"]))
  , .exec (.writeFile (SECONDARY_FILEPATH ++ ["baseline.parquet"]))
  , .exec (.readFile (RAW_DATA_FILEPATH ++ ["sim.csv"]))
  , .exec (.writeFile (SECONDARY_FILEPATH ++ ["sim.parquet"]))
  , .exec .tree
    -- cell: if the database file exists delete it, then create the database
  , .unlinkDbIfExists
  , .exec (.createDb DB_FILEPATH)
    -- cells: join, attributes, calculated field, schema
  , .exec .insertJoinedTimeseries
  , .exec .insertAttributes
  , .exec .insertCalculatedField
  , .exec .getSchema
    -- cell: export the joined table to Parquet
  , .exec (.exportJoinedTable (JOINED_FILEPATH ++ ["joined.parquet"]))
    -- cell: if the database file exists delete it
  , .unlinkDbIfExists
    -- cells: tree, then read-only queries and plots on the joined Parquet
  , .exec .tree
  , .exec .openJoinedParquet
  , .exec .getJoinedTimeseries
  , .exec .plot
  , .exec .getMetrics
  , .exec .plot ]

/-- Run the whole notebook from a starting filesystem state. -/
def runScript (fs0 : FS) : FS × List Op :=
  runCmds script fs0

/-! ## Failure propagation

The notebook contains no `try`/`except`.  Each command's library call may
fail; an `oracle` assigns the (optional) failure of the call made by the
`i`-th command.  With no handler in the script, the first failure aborts the
run: no later command executes and the exception reaches the caller
unchanged. -/

/-- A failure raised by an external library call. -/
inductive LibError where
  | missingFile
  | schemaMismatch
  | ioError
deriving DecidableEq, Repr

/-- Run commands where the `i`-th command's library call may raise.  A raised
error stops execution immediately (there is no handler in the script) and is
returned as the script's outcome; otherwise the command takes effect as in
`runCmds`. -/
def runCmdsE (oracle : Nat → Option LibError) :
    List Cmd → Nat → FS → List Op × Except LibError FS
  | [], _, fs => ([], .ok fs)
  | c :: rest, i, fs =>
      match oracle i with
      | some e => ([], .error e)
      | none =>
          let step := runCmd c fs
          let next := runCmdsE oracle rest (i + 1) step.1
          (step.2 ++ next.1, next.2)

/-- Run the whole notebook under a failure oracle. -/
def runScriptE (oracle : Nat → Option LibError) (fs0 : FS) :
    List Op × Except LibError FS :=
  runCmdsE oracle script 0 fs0

/-! ## Auxiliary command classifications for the frame proofs -/

/-- The operations an unconditional command performs (a guarded delete
contributes none to this projection). -/
def execOps : List Cmd → List Op
  | [] => []
  | .exec o :: rest => o :: execOps rest
  | .unlinkDbIfExists :: rest => execOps rest

/-- `true` when command `c` can never remove file `q` from the filesystem. -/
def cmdPreserves (q : FsPath) : Cmd → Bool
  | .exec (.removeTree d) => !decide (d <+: q)
  | .exec (.unlink p) => !decide (p = q)
  | .unlinkDbIfExists => !decide (DB_FILEPATH = q)
  | _ => true

/-- `true` when command `c` can never add file `q` to the filesystem. -/
def cmdNoCreate (q : FsPath) : Cmd → Bool
  | .exec (.download _) => !decide (q ∈ rawFiles)
  | .exec (.writeFile p) => !decide (p = q)
  | .exec (.createDb p) => !decide (p = q)
  | .exec (.exportJoinedTable p) => !decide (p = q)
  | _ => true

/-- All file paths a command list can possibly create. -/
def createdPaths : List Cmd → List FsPath
  | [] => []
  | .exec (.download _) :: rest => rawFiles ++ createdPaths rest
  | .exec (.writeFile p) :: rest => p :: createdPaths rest
  | .exec (.createDb p) :: rest => p :: createdPaths rest
  | .exec (.exportJoinedTable p) :: rest => p :: createdPaths rest
  | _ :: rest => createdPaths rest

/-! ## The spec's field list (for comparison with the code's columns) -/

/-- The timeseries field list as the spec's data model words it:
`(location_id, value_time, value, variable_name, unit, configuration,
reference_time)`.  This definition follows the spec's words, to be compared
with `convertedTimeseriesColumns`, which follows the code. -/
def specTimeseriesFields : List String :=
  ["location_id", "value_time", "value", "variable_name", "unit",
   "configuration", "reference_time"]

/-! ## Sample data used by the closed witness statements -/

def sampleDate : DateTime :=
  { year := 2024, month := 6, day := 15, hour := 12, minute := 0 }

def sampleRawObs : RawTimeseries :=
  { location_id := "gage-A", value_time := sampleDate, value := 3 }

def sampleRawSim : RawTimeseries :=
  { location_id := "sim-A", value_time := sampleDate, value := 5 }

def sampleCrosswalk : CrosswalkRecord :=
  { primary_location_id := "gage-A", secondary_location_id := "sim-A" }

def sampleAttribute : AttributeRecord :=
  { location_id := "gage-A", attribute_name := "ecoregion",
    attribute_value := "coastal" }

def sampleJoinedAttr : JoinedRowAttr :=
  { primary_location_id := "gage-A"
    secondary_location_id := "sim-A"
    value_time := sampleDate
    primary_value := 3
    secondary_value := 5
    configuration := "sim"
    variable_name := "streamflow_daily_mean"
    measurement_unit := "cms"
    reference_time := none
    attribute_values := [("ecoregion", "coastal")] }

def samplePrimaryRecord : TimeseriesRecord :=
  addStaticColumns "usgs" sampleRawObs

def sampleSecondaryRecord : TimeseriesRecord :=
  addStaticColumns "sim" sampleRawSim

/-- A failure oracle where the third command's library call raises a
missing-file error and every other call succeeds. -/
def sampleOracle : Nat → Option LibError :=
  fun n => if n = 2 then some LibError.missingFile else none

/-! ## Helper lemmas -/

lemma length_assignRefTimeColumn (src : List (Option DateTime))
    (rows : List TimeseriesRecord) :
    (assignRefTimeColumn src rows).length = rows.length := by
  induction rows generalizing src with
  | nil => cases src <;> simp [assignRefTimeColumn]
  | cons r rs ih => cases src <;> simp [assignRefTimeColumn, ih]

lemma getElem_assignRefTimeColumn_ref (src : List (Option DateTime))
    (rows : List TimeseriesRecord) (i : Nat)
    (h : i < (assignRefTimeColumn src rows).length) :
    (assignRefTimeColumn src rows)[i].reference_time = (src[i]?).getD none := by
  induction rows generalizing src i with
  | nil => cases src <;> simp [assignRefTimeColumn] at h
  | cons r rs ih =>
      cases src with
      | nil =>
          cases i with
          | zero => simp [assignRefTimeColumn]
          | succ n =>
              have h' : n < (assignRefTimeColumn [] rs).length := by
                simpa [assignRefTimeColumn] using h
              simpa [assignRefTimeColumn] using ih [] n h'
      | cons v vs =>
          cases i with
          | zero => simp [assignRefTimeColumn]
          | succ n =>
              have h' : n < (assignRefTimeColumn vs rs).length := by
                simpa [assignRefTimeColumn] using h
              simpa [assignRefTimeColumn] using ih vs n h'

lemma mem_assignRefTimeColumn {src : List (Option DateTime)}
    {rows : List TimeseriesRecord} {r' : TimeseriesRecord}
    (h : r' ∈ assignRefTimeColumn src rows) :
    ∃ r ∈ rows, ∃ v : Option DateTime,
      (v = none ∨ v ∈ src) ∧ r' = { r with reference_time := v } := by
  induction rows generalizing src with
  | nil => cases src <;> simp [assignRefTimeColumn] at h
  | cons r rs ih =>
      cases src with
      | nil =>
          simp only [assignRefTimeColumn, List.mem_cons] at h
          rcases h with h | h
          · exact ⟨r, List.mem_cons_self r rs, none, Or.inl rfl, h⟩
          · obtain ⟨r₀, hmem, v, hv, hr⟩ := ih h
            exact ⟨r₀, List.mem_cons_of_mem r hmem, v, hv, hr⟩
      | cons v vs =>
          simp only [assignRefTimeColumn, List.mem_cons] at h
          rcases h with h | h
          · exact ⟨r, List.mem_cons_self r rs, v,
              Or.inr (List.mem_cons_self v vs), h⟩
          · obtain ⟨r₀, hmem, v', hv', hr⟩ := ih h
            refine ⟨r₀, List.mem_cons_of_mem r hmem, v', ?_, hr⟩
            rcases hv' with hv' | hv'
            · exact Or.inl hv'
            · exact Or.inr (List.mem_cons_of_mem v hv')

lemma length_sim_ts (rawSim rawBaseline : List RawTimeseries) :
    (sim_ts rawSim rawBaseline).length = rawSim.length := by
  simp [sim_ts, length_assignRefTimeColumn]

/-! ## Claim theorems -/

/-- C2 (counterexample): the conversion step does not produce a field named
`unit` — the column the code adds is `measurement_unit` — so the converted
record's field list is not the claimed seven-field list containing `unit`. -/
theorem converted_columns_ne_spec_unit_field :
    ¬ (convertedTimeseriesColumns rawTimeseriesColumns).Perm specTimeseriesFields ∧
      "unit" ∉ convertedTimeseriesColumns rawTimeseriesColumns ∧
      "unit" ∈ specTimeseriesFields := by
  decide

/-- C2 (amended): every timeseries record written by the pipeline has exactly
the fields `(location_id, value_time, value, configuration, variable_name,
measurement_unit, reference_time)`, the four static fields `configuration`,
`variable_name`, `measurement_unit` and `reference_time` being added by the
conversion step (they are not raw CSV columns). -/
theorem converted_columns_exact :
    convertedTimeseriesColumns rawTimeseriesColumns =
      ["location_id", "value_time", "value", "configuration", "variable_name",
       "measurement_unit", "reference_time"] ∧
    ∀ c ∈ ["configuration", "variable_name", "measurement_unit", "reference_time"],
      c ∉ rawTimeseriesColumns := by
  decide

/-- C2 (witness): the amended field-set statement evaluated at the static
column `measurement_unit`. -/
theorem converted_columns_exact_witness :
    "measurement_unit" ∈
        ["configuration", "variable_name", "measurement_unit", "reference_time"] ∧
      "measurement_unit" ∉ rawTimeseriesColumns :=
  ⟨by decide, converted_columns_exact.2 "measurement_unit" (by decide)⟩

/-- C4: every Parquet file the notebook writes lands in one of the six fixed
subdirectories of the TEEHR base directory, in the subdirectory matching the
entity type of the data written. -/
theorem parquet_writes_in_fixed_subdirs :
    ∀ w ∈ parquetWrites,
      w.path.dropLast = TEEHR_BASE ++ [subdirName w.entity] ∧
        subdirName w.entity ∈ teehrSubdirs := by
  decide

/-- C4 (witness): the locations geometry file is written to the `geometry`
subdirectory of the TEEHR base directory. -/
theorem parquet_writes_in_fixed_subdirs_witness :
    ({ path := GEOMETRY_FILEPATH ++ ["locations.parquet"],
       entity := .geometry } : ParquetWrite) ∈ parquetWrites ∧
      ((GEOMETRY_FILEPATH ++ ["locations.parquet"]).dropLast =
          TEEHR_BASE ++ [subdirName .geometry] ∧
        subdirName EntityType.geometry ∈ teehrSubdirs) :=
  ⟨by decide, parquet_writes_in_fixed_subdirs
    { path := GEOMETRY_FILEPATH ++ ["locations.parquet"], entity := .geometry }
    (by decide)⟩

/-- C10: the exported joined Parquet file contains every row of the joined
timeseries table (a permutation) and its rows are sorted ascending by the
export query's key `(configuration, primary_location_id, value_time)`. -/
theorem export_joined_sorted_and_complete (rows : List JoinedRowMonth) :
    (exportJoined rows).Perm rows ∧ (exportJoined rows).Sorted exportOrder :=
  ⟨List.perm_insertionSort exportOrder rows,
    List.sorted_insertionSort exportOrder rows⟩

/-- C3: the calculated field is named `month`, is declared with SQL type
INTEGER, and for every joined row its value is the month-of-year of the row's
`value_time`, an integer between 1 and 12 whenever the row's `value_time` is
a valid datetime. -/
theorem month_calculated_field_correct (rows : List JoinedRowAttr)
    (hval : ∀ r ∈ rows, r.value_time.isValid) :
    monthFieldSpec.new_field_name = "month" ∧
    monthFieldSpec.new_field_type = "INTEGER" ∧
    ∀ r ∈ insert_calculated_field_month rows,
      r.month = (r.value_time.month : Int) ∧ 1 ≤ r.month ∧ r.month ≤ 12 := by
  refine ⟨rfl, rfl, ?_⟩
  intro r hr
  simp only [insert_calculated_field_month, List.mem_map] at hr
  obtain ⟨r₀, h₀, rfl⟩ := hr
  obtain ⟨h1, h2, -⟩ := hval r₀ h₀
  refine ⟨rfl, ?_, ?_⟩
  · show (1 : Int) ≤ (r₀.value_time.month : Int)
    exact_mod_cast h1
  · show (r₀.value_time.month : Int) ≤ 12
    exact_mod_cast h2

/-- C3 (witness): the month statement evaluated on a one-row table with a
valid June datetime. -/
theorem month_calculated_field_correct_witness :
    (∀ r ∈ [sampleJoinedAttr], r.value_time.isValid) ∧
      (monthFieldSpec.new_field_name = "month" ∧
        monthFieldSpec.new_field_type = "INTEGER" ∧
        ∀ r ∈ insert_calculated_field_month [sampleJoinedAttr],
          r.month = (r.value_time.month : Int) ∧ 1 ≤ r.month ∧ r.month ≤ 12) :=
  ⟨by decide, month_calculated_field_correct [sampleJoinedAttr] (by decide)⟩

/-- C9: every record written by the three conversion cells has
`variable_name = streamflow_daily_mean`, `measurement_unit = cms`, a null
`reference_time`, and configuration `usgs`, `baseline` or `sim` according to
the dataset it belongs to. -/
theorem converted_records_static_invariant
    (rawObs rawBase rawSim : List RawTimeseries) :
    (∀ r ∈ obs_ts rawObs, r.variable_name = "streamflow_daily_mean" ∧
        r.measurement_unit = "cms" ∧ r.reference_time = none ∧
        r.configuration = "usgs") ∧
    (∀ r ∈ baseline_ts rawBase, r.variable_name = "streamflow_daily_mean" ∧
        r.measurement_unit = "cms" ∧ r.reference_time = none ∧
        r.configuration = "baseline") ∧
    (∀ r ∈ sim_ts rawSim rawBase, r.variable_name = "streamflow_daily_mean" ∧
        r.measurement_unit = "cms" ∧ r.reference_time = none ∧
        r.configuration = "sim") := by
  refine ⟨?_, ?_, ?_⟩
  · intro r hr
    simp only [obs_ts, List.mem_map] at hr
    obtain ⟨r₀, -, rfl⟩ := hr
    exact ⟨rfl, rfl, rfl, rfl⟩
  · intro r hr
    simp only [baseline_ts, List.mem_map] at hr
    obtain ⟨r₀, -, rfl⟩ := hr
    exact ⟨rfl, rfl, rfl, rfl⟩
  · intro r hr
    simp only [sim_ts] at hr
    obtain ⟨r₁, hmem, v, hv, rfl⟩ := mem_assignRefTimeColumn hr
    simp only [List.mem_map] at hmem
    obtain ⟨r₀, -, rfl⟩ := hmem
    have hvnone : v = none := by
      rcases hv with hv | hv
      · exact hv
      · simp only [baseline_ts, List.map_map, List.mem_map] at hv
        obtain ⟨x, -, hx⟩ := hv
        simpa [addStaticColumns] using hx.symm
    subst hvnone
    exact ⟨rfl, rfl, rfl, rfl⟩

/-- C9 (witness): the static-column invariant evaluated on one-row raw
inputs. -/
theorem converted_records_static_invariant_witness :
    addStaticColumns "usgs" sampleRawObs ∈ obs_ts [sampleRawObs] ∧
      ((addStaticColumns "usgs" sampleRawObs).variable_name =
          "streamflow_daily_mean" ∧
        (addStaticColumns "usgs" sampleRawObs).measurement_unit = "cms" ∧
        (addStaticColumns "usgs" sampleRawObs).reference_time = none ∧
        (addStaticColumns "usgs" sampleRawObs).configuration = "usgs") :=
  ⟨by decide,
    (converted_records_static_invariant [sampleRawObs] [] []).1
      (addStaticColumns "usgs" sampleRawObs) (by decide)⟩

/-- C8: the `reference_time` column of the converted sim secondary timeseries
is assigned from `baseline_ts`'s `reference_time` column aligned by row
index: row `i` of the sim output carries the baseline column's value at
index `i`, and a sim row whose index is absent from `baseline_ts` gets a
missing `reference_time`. -/
theorem sim_reference_time_aligned_to_baseline
    (rawSim rawBaseline : List RawTimeseries) (i : Nat)
    (h : i < (sim_ts rawSim rawBaseline).length) :
    (sim_ts rawSim rawBaseline)[i].reference_time =
        ((((baseline_ts rawBaseline).map fun r => r.reference_time)[i]?).getD
          none) ∧
      ((baseline_ts rawBaseline).length ≤ i →
        (sim_ts rawSim rawBaseline)[i].reference_time = none) := by
  simp only [sim_ts] at h ⊢
  constructor
  · exact getElem_assignRefTimeColumn_ref _ _ i h
  · intro hlen
    rw [getElem_assignRefTimeColumn_ref _ _ i h]
    have hnone :
        (((baseline_ts rawBaseline).map fun r => r.reference_time)[i]?) = none := by
      rw [List.getElem?_eq_none]
      simpa using hlen
    rw [hnone]
    rfl

/-- C8 (witness): the alignment statement at index 0 of a one-row sim input
with an empty baseline: the missing baseline index yields a missing
reference time. -/
theorem sim_reference_time_aligned_to_baseline_witness :
    0 < (sim_ts [sampleRawSim] []).length ∧
      ((sim_ts [sampleRawSim] [])[0].reference_time =
          (((((baseline_ts []).map fun r => r.reference_time)[0]?).getD
            none)) ∧
        ((baseline_ts []).length ≤ 0 →
          (sim_ts [sampleRawSim] [])[0].reference_time = none)) :=
  ⟨by decide,
    sim_reference_time_aligned_to_baseline [sampleRawSim] [] 0 (by decide)⟩

/-- C1: every joined, attribute-enriched row arises from a crosswalk pair, a
primary record at the pair's primary location and a secondary record at the
pair's secondary location taken at the same `value_time`; the row carries
exactly those two values at that time and the attributes of its primary
location — no row pairs unrelated locations or differing times. -/
theorem joined_rows_respect_crosswalk_time_and_attributes
    (primary secondary : List TimeseriesRecord) (crosswalk : List CrosswalkRecord)
    (attrTable : List AttributeRecord) (row : JoinedRowAttr)
    (hrow : row ∈ insert_attributes attrTable
      (insert_joined_timeseries primary secondary crosswalk)) :
    ∃ cw ∈ crosswalk, ∃ p ∈ primary, ∃ s ∈ secondary,
      p.location_id = cw.primary_location_id ∧
      s.location_id = cw.secondary_location_id ∧
      s.value_time = p.value_time ∧
      row.primary_location_id = cw.primary_location_id ∧
      row.secondary_location_id = cw.secondary_location_id ∧
      row.value_time = p.value_time ∧
      row.primary_value = p.value ∧
      row.secondary_value = s.value ∧
      row.attribute_values = attributesFor attrTable cw.primary_location_id := by
  simp only [insert_attributes, List.mem_map] at hrow
  obtain ⟨jr, hjr, rfl⟩ := hrow
  simp only [insert_joined_timeseries, List.mem_flatMap, List.mem_map,
    List.mem_filter, Bool.and_eq_true, beq_iff_eq] at hjr
  obtain ⟨cw, hcw, p, ⟨hp, hploc⟩, s, ⟨hs, hsloc, hstime⟩, rfl⟩ := hjr
  exact ⟨cw, hcw, p, hp, s, hs, hploc, hsloc, hstime, rfl, rfl, rfl, rfl, rfl, rfl⟩

/-- C1 (witness): the join statement evaluated on one-row tables related by
the sample crosswalk. -/
theorem joined_rows_respect_crosswalk_witness :
    sampleJoinedAttr ∈ insert_attributes [sampleAttribute]
        (insert_joined_timeseries [samplePrimaryRecord] [sampleSecondaryRecord]
          [sampleCrosswalk]) ∧
      (∃ cw ∈ [sampleCrosswalk], ∃ p ∈ [samplePrimaryRecord],
        ∃ s ∈ [sampleSecondaryRecord],
        p.location_id = cw.primary_location_id ∧
        s.location_id = cw.secondary_location_id ∧
        s.value_time = p.value_time ∧
        sampleJoinedAttr.primary_location_id = cw.primary_location_id ∧
        sampleJoinedAttr.secondary_location_id = cw.secondary_location_id ∧
        sampleJoinedAttr.value_time = p.value_time ∧
        sampleJoinedAttr.primary_value = p.value ∧
        sampleJoinedAttr.secondary_value = s.value ∧
        sampleJoinedAttr.attribute_values =
          attributesFor [sampleAttribute] cw.primary_location_id) :=
  ⟨by decide,
    joined_rows_respect_crosswalk_time_and_attributes [samplePrimaryRecord]
      [sampleSecondaryRecord] [sampleCrosswalk] [sampleAttribute]
      sampleJoinedAttr (by decide)⟩

/-! ## Frame lemmas about the script state machine -/

lemma mem_writeFS {q p : FsPath} {fs : FS} :
    q ∈ writeFS p fs ↔ q = p ∨ (q ∈ fs ∧ q ≠ p) := by
  simp [writeFS, List.mem_filter]

lemma mem_unlinkFS {q p : FsPath} {fs : FS} :
    q ∈ unlinkFS p fs ↔ q ∈ fs ∧ q ≠ p := by
  simp [unlinkFS, List.mem_filter]

lemma mem_removeTreeFS {q d : FsPath} {fs : FS} :
    q ∈ removeTreeFS d fs ↔ q ∈ fs ∧ ¬ d <+: q := by
  simp [removeTreeFS, List.mem_filter]

lemma mem_foldl_writeFS (l : List FsPath) (fs : FS) (q : FsPath) :
    q ∈ l.foldl (fun acc p => writeFS p acc) fs ↔ q ∈ l ∨ q ∈ fs := by
  induction l generalizing fs with
  | nil => simp
  | cons p ps ih =>
      simp only [List.foldl_cons, ih, mem_writeFS, List.mem_cons]
      constructor
      · rintro (h | (rfl | ⟨h, -⟩))
        · exact Or.inl (Or.inr h)
        · exact Or.inl (Or.inl rfl)
        · exact Or.inr h
      · rintro ((h | h) | h)
        · exact Or.inr (Or.inl h)
        · exact Or.inl h
        · by_cases hqp : q = p
          · exact Or.inr (Or.inl hqp)
          · exact Or.inr (Or.inr ⟨h, hqp⟩)

lemma mem_downloadFS {q : FsPath} {fs : FS} :
    q ∈ downloadFS fs ↔ q ∈ rawFiles ∨ q ∈ fs := by
  simp [downloadFS, mem_foldl_writeFS]

lemma runCmds_cons (c : Cmd) (rest : List Cmd) (fs : FS) :
    runCmds (c :: rest) fs =
      ((runCmds rest (runCmd c fs).1).1,
        (runCmd c fs).2 ++ (runCmds rest (runCmd c fs).1).2) :=
  rfl

lemma runCmd_fst_preserves {q : FsPath} {c : Cmd} {fs : FS}
    (hq : q ∈ fs) (hc : cmdPreserves q c = true) : q ∈ (runCmd c fs).1 := by
  cases c with
  | exec o =>
      cases o <;>
        simp_all [runCmd, applyOp, cmdPreserves, mem_writeFS, mem_unlinkFS,
          mem_removeTreeFS, mem_downloadFS] <;>
        by_cases hqp : q = ‹FsPath› <;> simp_all
  | unlinkDbIfExists =>
      simp only [cmdPreserves, Bool.not_eq_true', decide_eq_false_iff_not] at hc
      simp only [runCmd]
      by_cases hdb : isFile DB_FILEPATH fs <;> simp [hdb, mem_unlinkFS, hq]
      exact fun h => hc h.symm

lemma runCmds_fst_preserves {q : FsPath} :
    ∀ (cmds : List Cmd) (fs : FS), q ∈ fs →
      (∀ c ∈ cmds, cmdPreserves q c = true) → q ∈ (runCmds cmds fs).1 := by
  intro cmds
  induction cmds with
  | nil => intro fs hq _; exact hq
  | cons c rest ih =>
      intro fs hq hall
      rw [runCmds_cons]
      exact ih _ (runCmd_fst_preserves hq (hall c (List.mem_cons_self c rest)))
        fun d hd => hall d (List.mem_cons_of_mem c hd)

lemma runCmd_fst_noCreate {q : FsPath} {c : Cmd} {fs : FS}
    (hq : q ∉ fs) (hc : cmdNoCreate q c = true) : q ∉ (runCmd c fs).1 := by
  cases c with
  | exec o =>
      cases o <;>
        simp_all [runCmd, applyOp, cmdNoCreate, mem_writeFS, mem_unlinkFS,
          mem_removeTreeFS, mem_downloadFS] <;>
        intro h <;> simp_all
  | unlinkDbIfExists =>
      simp only [runCmd]
      by_cases hdb : isFile DB_FILEPATH fs <;> simp [hdb, mem_unlinkFS, hq]

lemma runCmds_fst_noCreate {q : FsPath} :
    ∀ (cmds : List Cmd) (fs : FS), q ∉ fs →
      (∀ c ∈ cmds, cmdNoCreate q c = true) → q ∉ (runCmds cmds fs).1 := by
  intro cmds
  induction cmds with
  | nil => intro fs hq _; exact hq
  | cons c rest ih =>
      intro fs hq hall
      rw [runCmds_cons]
      exact ih _ (runCmd_fst_noCreate hq (hall c (List.mem_cons_self c rest)))
        fun d hd => hall d (List.mem_cons_of_mem c hd)

lemma mem_runCmds_of_write {q : FsPath} :
    ∀ (cmds : List Cmd) (fs : FS),
      (∀ c ∈ cmds, cmdPreserves q c = true) →
      (q ∈ fs ∨ Cmd.exec (Op.writeFile q) ∈ cmds ∨
        Cmd.exec (Op.exportJoinedTable q) ∈ cmds ∨
        Cmd.exec (Op.createDb q) ∈ cmds) →
      q ∈ (runCmds cmds fs).1 := by
  intro cmds
  induction cmds with
  | nil =>
      intro fs _ hsrc
      simpa using hsrc
  | cons c rest ih =>
      intro fs hall hsrc
      rw [runCmds_cons]
      have htail : ∀ d ∈ rest, cmdPreserves q d = true :=
        fun d hd => hall d (List.mem_cons_of_mem c hd)
      rcases hsrc with hq | hw | he | hc
      · exact ih _ htail
          (Or.inl (runCmd_fst_preserves hq (hall c (List.mem_cons_self c rest))))
      · rcases List.mem_cons.mp hw with rfl | hw
        · exact ih _ htail (Or.inl (by simp [runCmd, applyOp, mem_writeFS]))
        · exact ih _ htail (Or.inr (Or.inl hw))
      · rcases List.mem_cons.mp he with rfl | he
        · exact ih _ htail (Or.inl (by simp [runCmd, applyOp, mem_writeFS]))
        · exact ih _ htail (Or.inr (Or.inr (Or.inl he)))
      · rcases List.mem_cons.mp hc with rfl | hc
        · exact ih _ htail (Or.inl (by simp [runCmd, applyOp, mem_writeFS]))
        · exact ih _ htail (Or.inr (Or.inr (Or.inr hc)))

lemma runCmd_created_sub {q : FsPath} {c : Cmd} {fs : FS}
    (h : q ∈ (runCmd c fs).1) :
    q ∈ fs ∨ q ∈ createdPaths [c] := by
  cases c with
  | exec o =>
      cases o <;>
        simp_all [runCmd, applyOp, createdPaths, mem_writeFS, mem_unlinkFS,
          mem_removeTreeFS, mem_downloadFS] <;>
        tauto
  | unlinkDbIfExists =>
      simp only [runCmd] at h
      by_cases hdb : isFile DB_FILEPATH fs <;> simp [hdb] at h
      · exact Or.inl (mem_unlinkFS.mp h).1
      · exact Or.inl h

lemma createdPaths_cons (c : Cmd) (rest : List Cmd) :
    createdPaths (c :: rest) = createdPaths [c] ++ createdPaths rest := by
  cases c with
  | exec o => cases o <;> simp [createdPaths]
  | unlinkDbIfExists => simp [createdPaths]

lemma mem_runCmds_created_sub {q : FsPath} :
    ∀ (cmds : List Cmd) (fs : FS), q ∈ (runCmds cmds fs).1 →
      q ∈ fs ∨ q ∈ createdPaths cmds := by
  intro cmds
  induction cmds with
  | nil => intro fs h; exact Or.inl h
  | cons c rest ih =>
      intro fs h
      rw [runCmds_cons] at h
      rcases ih _ h with h1 | h1
      · rcases runCmd_created_sub h1 with h2 | h2
        · exact Or.inl h2
        · exact Or.inr (by rw [createdPaths_cons]; exact List.mem_append_left _ h2)
      · exact Or.inr (by rw [createdPaths_cons]; exact List.mem_append_right _ h1)

lemma runCmd_db_indep (c : Cmd) (fs fs' : FS)
    (h : DB_FILEPATH ∈ fs ↔ DB_FILEPATH ∈ fs') :
    (runCmd c fs).2 = (runCmd c fs').2 ∧
      (DB_FILEPATH ∈ (runCmd c fs).1 ↔ DB_FILEPATH ∈ (runCmd c fs').1) := by
  cases c with
  | exec o =>
      refine ⟨rfl, ?_⟩
      cases o <;>
        simp [runCmd, applyOp, mem_writeFS, mem_unlinkFS, mem_removeTreeFS,
          mem_downloadFS, h]
  | unlinkDbIfExists =>
      have hiff : isFile DB_FILEPATH fs = isFile DB_FILEPATH fs' := by
        simp only [isFile]
        exact decide_eq_decide.mpr h
      simp only [runCmd]
      by_cases hdb : isFile DB_FILEPATH fs
      · rw [hdb] at hiff
        simp [hdb, ← hiff, mem_unlinkFS]
      · rw [eq_comm] at hiff
        rw [Bool.not_eq_true] at hdb
        rw [hdb] at hiff
        simp [hdb, hiff, h]

lemma runCmds_db_indep :
    ∀ (cmds : List Cmd) (fs fs' : FS),
      (DB_FILEPATH ∈ fs ↔ DB_FILEPATH ∈ fs') →
      (runCmds cmds fs).2 = (runCmds cmds fs').2 ∧
        (DB_FILEPATH ∈ (runCmds cmds fs).1 ↔
          DB_FILEPATH ∈ (runCmds cmds fs').1) := by
  intro cmds
  induction cmds with
  | nil => intro fs fs' h; exact ⟨rfl, h⟩
  | cons c rest ih =>
      intro fs fs' h
      obtain ⟨htr, hst⟩ := runCmd_db_indep c fs fs' h
      obtain ⟨htr', hst'⟩ := ih (runCmd c fs).1 (runCmd c fs').1 hst
      rw [runCmds_cons, runCmds_cons]
      exact ⟨by rw [htr, htr'], hst'⟩

lemma db_not_mem_removeTree (fs : FS) :
    DB_FILEPATH ∉ removeTreeFS example1Dir fs := by
  rw [mem_removeTreeFS]
  rintro ⟨-, hpre⟩
  exact hpre (by decide)

lemma script_head : script = Cmd.exec (Op.removeTree example1Dir) :: script.tail :=
  rfl

lemma runScript_trace_indep (fs0 fs1 : FS) :
    (runScript fs0).2 = (runScript fs1).2 := by
  have h0 := db_not_mem_removeTree fs0
  have h1 := db_not_mem_removeTree fs1
  have hiff : DB_FILEPATH ∈ removeTreeFS example1Dir fs0 ↔
      DB_FILEPATH ∈ removeTreeFS example1Dir fs1 := by
    constructor
    · intro h; exact absurd h h0
    · intro h; exact absurd h h1
  have := (runCmds_db_indep script.tail (removeTreeFS example1Dir fs0)
    (removeTreeFS example1Dir fs1) hiff).1
  rw [runScript, runScript, script_head, runCmds_cons, runCmds_cons]
  simp only [runCmd, applyOp]
  rw [this]

lemma runScript_db_mem_indep (fs0 : FS) :
    (DB_FILEPATH ∈ (runScript fs0).1 ↔ DB_FILEPATH ∈ (runScript []).1) := by
  have hiff : DB_FILEPATH ∈ removeTreeFS example1Dir fs0 ↔
      DB_FILEPATH ∈ removeTreeFS example1Dir [] := by
    constructor
    · intro h; exact absurd h (db_not_mem_removeTree fs0)
    · intro h; exact absurd h (db_not_mem_removeTree [])
  have := (runCmds_db_indep script.tail (removeTreeFS example1Dir fs0)
    (removeTreeFS example1Dir []) hiff).2
  rw [runScript, runScript, script_head, runCmds_cons, runCmds_cons]
  simpa only [runCmd, applyOp] using this

lemma runCmdsE_first_error (oracle : Nat → Option LibError) :
    ∀ (cmds : List Cmd) (i : Nat) (fs : FS) (k : Nat) (e : LibError),
      k < cmds.length → (∀ j < k, oracle (i + j) = none) →
      oracle (i + k) = some e →
      (runCmdsE oracle cmds i fs).2 = Except.error e ∧
        (runCmdsE oracle cmds i fs).1 = (runCmds (cmds.take k) fs).2 := by
  intro cmds
  induction cmds with
  | nil =>
      intro i fs k e hk
      simp at hk
  | cons c rest ih =>
      intro i fs k e hk hnone he
      cases k with
      | zero =>
          have h0 : oracle i = some e := by simpa using he
          refine ⟨?_, ?_⟩ <;> simp [runCmdsE, h0, runCmds]
      | succ n =>
          have h0 : oracle i = none := by simpa using hnone 0 (Nat.succ_pos n)
          have hk' : n < rest.length := by simpa using hk
          have hnone' : ∀ j < n, oracle (i + 1 + j) = none := by
            intro j hj
            have hx : i + (j + 1) = i + 1 + j := by omega
            have := hnone (j + 1) (by omega)
            rwa [hx] at this
          have he' : oracle (i + 1 + n) = some e := by
            have hx : i + (n + 1) = i + 1 + n := by omega
            rwa [hx] at he
          obtain ⟨ha, hb⟩ := ih (i + 1) (runCmd c fs).1 n e hk' hnone' he'
          constructor
          · simp only [runCmdsE, h0]
            exact ha
          · simp only [runCmdsE, h0, List.take_succ_cons, runCmds_cons]
            rw [hb]

/-- C5: the embedded database file `teehr.db` is scratch space: every run
creates it and deletes it again, so whatever the starting filesystem state,
the final state does not contain the database file; all ten Parquet files are
present, and the only files under the TEEHR base directory are those Parquet
files. -/
theorem scratch_db_created_and_deleted (fs0 : FS) :
    DB_FILEPATH ∉ (runScript fs0).1 ∧
      Op.createDb DB_FILEPATH ∈ (runScript fs0).2 ∧
      Op.unlink DB_FILEPATH ∈ (runScript fs0).2 ∧
      (∀ w ∈ parquetWrites, w.path ∈ (runScript fs0).1) ∧
      (∀ q ∈ (runScript fs0).1, TEEHR_BASE <+: q →
        q ∈ parquetWrites.map fun w => w.path) := by
  have hdb : DB_FILEPATH ∉ (runScript fs0).1 := by
    rw [runScript_db_mem_indep fs0]
    decide
  refine ⟨hdb, ?_, ?_, ?_, ?_⟩
  · rw [runScript_trace_indep fs0 []]
    decide
  · rw [runScript_trace_indep fs0 []]
    decide
  · intro w hw
    rw [runScript, script_head, runCmds_cons]
    simp only [runCmd, applyOp]
    simp only [parquetWrites, List.mem_cons, List.not_mem_nil, or_false] at hw
    rcases hw with rfl | rfl | rfl | rfl | rfl | rfl | rfl | rfl | rfl | rfl <;>
      exact mem_runCmds_of_write _ _ (by decide) (Or.inr (by decide))
  · intro q hq hpre
    have hq' : q ∈ (runCmds script.tail
        (removeTreeFS example1Dir fs0)).1 := by
      rw [runScript, script_head, runCmds_cons] at hq
      simpa only [runCmd, applyOp] using hq
    rcases mem_runCmds_created_sub script.tail _ hq' with h | h
    · exfalso
      rcases mem_removeTreeFS.mp h with ⟨-, hnp⟩
      exact hnp ((by decide : example1Dir <+: TEEHR_BASE).trans hpre)
    · have hcase : ∀ x ∈ createdPaths script.tail, TEEHR_BASE <+: x →
          x = DB_FILEPATH ∨ x ∈ parquetWrites.map fun w => w.path := by
        decide
      rcases hcase q h hpre with rfl | hmem
      · exact absurd hq hdb
      · exact hmem

/-- C5 (witness): the locations Parquet file persists and the database file
does not, in a run from the empty filesystem. -/
theorem scratch_db_created_and_deleted_witness :
    ({ path := GEOMETRY_FILEPATH ++ ["locations.parquet"],
        entity := .geometry } : ParquetWrite) ∈ parquetWrites ∧
      (GEOMETRY_FILEPATH ++ ["locations.parquet"]) ∈ (runScript []).1 :=
  ⟨by decide,
    (scratch_db_created_and_deleted []).2.2.2.1
      { path := GEOMETRY_FILEPATH ++ ["locations.parquet"],
        entity := .geometry } (by decide)⟩

/-- C6: the notebook is a linear script whose executed operation sequence
does not depend on the starting filesystem state: any two runs perform
exactly the same sequence of operations (the two `is_file` guards always
resolve the same way, since the opening `rm -rf` removes any pre-existing
database file and the database creation precedes the second guard). -/
theorem script_sequence_unconditional (fs0 fs1 : FS) :
    (runScript fs0).2 = (runScript fs1).2 :=
  runScript_trace_indep fs0 fs1

/-- C7: the script has no error handling: when the library call made by the
`k`-th command fails, the failure propagates to the caller unchanged, no
later operation is executed (the trace is exactly that of the first `k`
commands), and nothing is retried or reported. -/
theorem failures_propagate_unhandled (oracle : Nat → Option LibError)
    (fs0 : FS) (k : Nat) (e : LibError) (hk : k < script.length)
    (hnone : ∀ j < k, oracle j = none) (he : oracle k = some e) :
    (runScriptE oracle fs0).2 = Except.error e ∧
      (runScriptE oracle fs0).1 = (runCmds (script.take k) fs0).2 := by
  have h := runCmdsE_first_error oracle script 0 fs0 k e hk
    (fun j hj => by simpa using hnone j hj) (by simpa using he)
  rw [runScriptE]
  exact h

/-- C7 (witness): under an oracle whose third library call raises a
missing-file error, the run from the empty filesystem returns exactly that
error and performs only the first two operations. -/
theorem failures_propagate_unhandled_witness :
    (2 < script.length ∧ (∀ j < 2, sampleOracle j = none) ∧
        sampleOracle 2 = some LibError.missingFile) ∧
      ((runScriptE sampleOracle []).2 = Except.error LibError.missingFile ∧
        (runScriptE sampleOracle []).1 = (runCmds (script.take 2) []).2) :=
  ⟨⟨by decide, by decide, by decide⟩,
    failures_propagate_unhandled sampleOracle [] 2 LibError.missingFile
      (by decide) (by decide) (by decide)⟩

end Teehr
